import Mathlib

/-!
Shallow embedding of the token-interceptor backend of this repository:
`packages/backend/src/tokeninterceptor/router.ts` and the local/dev auth path
wired up in `packages/backend/src/index.ts`.

Requests carry optional string fields (a JSON field that is absent is `none`).
JavaScript truthiness of an optional string is `falsy`; the coercion that
`URLSearchParams.append` applies to `undefined` is `jsString`. The two
upstream endpoints are stubbed by a `World`. One invocation of the handler is
a pure function producing a `Trace`: the ordered list of attempted response
writes and the ordered list of upstream HTTP calls it makes. Express commits
only the first write of a response (later writes raise once headers are
sent), so the effective response of an invocation is the head of the write
list.
-/

namespace TokenInterceptor

/-- JavaScript truthiness test on an optional string: `!x` is true when the
field is absent (`undefined`) or the empty string. -/
def falsy : Option String → Bool
  | none => true
  | some s => s.isEmpty

/-- String coercion performed by `URLSearchParams.append` and template
literals: `undefined` becomes the literal string "undefined". -/
def jsString : Option String → String
  | none => "undefined"
  | some s => s

/-- Process configuration (`InterceptorEnvironment` of `types.ts`, loaded in
`tokeninterceptor/index.ts` from config keys, plus `backend.devToken`). -/
structure Env where
  tokenEndpoint : String
  usersApiEndpoint : String
  jwtSigningKey : String
  devToken : String

/-- The incoming HTTP request as read by `handleTokenExchange`
(`req.method` and the body fields it extracts). -/
structure Request where
  method : String
  client_id : Option String
  client_secret : Option String
  code : Option String
  grant_type : Option String
  redirect_uri : Option String
  refresh_token : Option String

/-- JSON body returned by the upstream token endpoint; only `access_token`
and `refresh_token` are read, either may be absent. -/
structure TokenBody where
  access_token : Option String
  refresh_token : Option String

/-- JSON body returned by the upstream user-info endpoint; only `email` is
read. -/
structure UserInfo where
  email : Option String

/-- A token produced by `jwt.sign`: it records exactly the payload that was
signed (the sole claim `email`) and the signing key used. -/
structure SignedToken where
  email : Option String
  key : String
deriving DecidableEq

/-- Model of `jwt.sign(payload, key)` where the payload is the single-claim
object with field `email`. -/
def jwtSign (email : Option String) (key : String) : SignedToken :=
  SignedToken.mk email key

/-- The `TokenResponse` record built by `generateIdToken`. -/
structure TokenResponse where
  accessToken : Option String
  refreshToken : Option String
  idToken : SignedToken
deriving DecidableEq

/-- Stub of the two upstream endpoints for one invocation: the result of the
POST to the token endpoint and the result of the GET to the user-info
endpoint (`Except.error` is a network failure or non-2xx response). -/
structure World where
  tokenEndpointResult : Except String TokenBody
  userInfoResult : Except String UserInfo

/-- One upstream HTTP call made during an invocation. -/
inductive Call where
  | postToken : String → List (String × String) → Call
  | getUserInfo : String → String → Call
deriving DecidableEq

/-- Body of one attempted response write. `text` is a plain-text body
(`res.send(string)`, or the status message sent by `res.sendStatus` and the
deprecated numeric `res.send(500)`); `errJson` is an error object serialized
by `res.send(err)` or `res.json(err)`; `tokenJson` is the success JSON
produced by `res.json` with fields `access_token`, `refresh_token`,
`id_token`. -/
inductive Body where
  | empty : Body
  | text : String → Body
  | errJson : String → Body
  | tokenJson : Option String → Option String → SignedToken → Body
deriving DecidableEq

/-- One attempted response write: status code, headers appended, body. -/
structure Write where
  status : Nat
  headers : List (String × String)
  body : Body
deriving DecidableEq

/-- Everything observable about one invocation of the handler: the attempted
response writes in order, and the upstream calls in order. -/
structure Trace where
  writes : List Write
  calls : List Call
deriving DecidableEq

/-- The effective (first, committed) response write of an invocation. -/
def firstWrite (t : Trace) : Option Write :=
  t.writes.head?

/-- Status code of the effective response. -/
def effStatus (t : Trace) : Option Nat :=
  (firstWrite t).map Write.status

/-- Form-body parameters of the first upstream token-endpoint call of the
trace (empty when the first call is not a token POST). -/
def firstCallParams (t : Trace) : List (String × String) :=
  match t.calls.head? with
  | some (Call.postToken _ ps) => ps
  | _ => []

/-- Whether a call is a GET of the user-info endpoint. -/
def isUserInfoCall : Call → Bool
  | Call.getUserInfo _ _ => true
  | _ => false

/-- Whether a body carries an `id_token` field. -/
def bodyHasIdToken : Body → Bool
  | Body.tokenJson _ _ _ => true
  | _ => false

/-- Whether a body is JSON (as opposed to empty or plain text). -/
def isJsonBody : Body → Bool
  | Body.errJson _ => true
  | Body.tokenJson _ _ _ => true
  | _ => false

/-- `generatePostParams` of `router.ts`: iterates the own enumerable
properties of the argument object in insertion order and appends each to a
`URLSearchParams`, coercing `undefined` values to the string "undefined". -/
def generatePostParams (params : List (String × Option String)) : List (String × String) :=
  params.map (fun p => (p.1, jsString p.2))

/-- `generateIdToken` of `router.ts`: GET the user-info endpoint with header
`Authorization: Bearer <accessToken>`; on success sign a token whose sole
payload claim is the `email` of the response and return the
`TokenResponse`; on failure propagate the error. The second component is
the upstream call it performs. -/
def generateIdToken (env : Env) (w : World) (accessToken refreshToken : Option String) :
    Except String TokenResponse × List Call :=
  (match w.userInfoResult with
    | Except.ok info =>
        Except.ok (TokenResponse.mk accessToken refreshToken (jwtSign info.email env.jwtSigningKey))
    | Except.error e => Except.error e,
   [Call.getUserInfo env.usersApiEndpoint ("Bearer " ++ jsString accessToken)])

/-- The synchronous response writes of `handleTokenExchange` that precede the
dispatch: a 405 with `Allow: POST` for a non-POST method, then a 400 when
`client_id`, `client_secret` or `grant_type` is falsy. Neither branch
returns, so execution continues into the dispatch regardless. -/
def preWrites (req : Request) : List Write :=
  (if req.method ≠ "POST" then [Write.mk 405 [("Allow", "POST")] Body.empty] else []) ++
  (if falsy req.client_id || falsy req.client_secret || falsy req.grant_type then
    [Write.mk 400 [] (Body.text "Invalid parameters for token exchange")]
   else [])

/-- `handleTokenExchange` of `router.ts`. After the (non-short-circuiting)
method and parameter checks it dispatches on `grant_type`:

* `authorization_code`: POSTs the form body
  `code, client_id, client_secret, grant_type, redirect_uri` to the token
  endpoint; on success runs `generateIdToken` with the returned tokens and
  answers `res.json` with the triple; on minting failure runs
  `res.send(500).send(err)` (the deprecated numeric send commits status 500
  with the status-message text body, the chained send is a second attempted
  write); on token failure runs `res.sendStatus(500).send(err)` (same
  shape).
* any other `grant_type`: POSTs the form body
  `refresh_token, client_id, client_secret, grant_type`; on success answers
  `res.json` with `access_token` and `refresh_token` from the upstream body
  and the minted `id_token`; on minting failure `res.status(500).send(err)`;
  on token failure `res.status(500).json(err)`. -/
def handleTokenExchange (env : Env) (w : World) (req : Request) : Trace :=
  if req.grant_type = some "authorization_code" then
    let params := generatePostParams
      [("code", req.code), ("client_id", req.client_id),
       ("client_secret", req.client_secret), ("grant_type", req.grant_type),
       ("redirect_uri", req.redirect_uri)]
    match w.tokenEndpointResult with
    | Except.ok tokenBody =>
        let res := generateIdToken env w tokenBody.access_token tokenBody.refresh_token
        match res.1 with
        | Except.ok tr =>
            Trace.mk
              (preWrites req ++
                [Write.mk 200 [] (Body.tokenJson tr.accessToken tr.refreshToken tr.idToken)])
              (Call.postToken env.tokenEndpoint params :: res.2)
        | Except.error e =>
            Trace.mk
              (preWrites req ++
                [Write.mk 500 [] (Body.text "Internal Server Error"),
                 Write.mk 500 [] (Body.errJson e)])
              (Call.postToken env.tokenEndpoint params :: res.2)
    | Except.error e =>
        Trace.mk
          (preWrites req ++
            [Write.mk 500 [] (Body.text "Internal Server Error"),
             Write.mk 500 [] (Body.errJson e)])
          [Call.postToken env.tokenEndpoint params]
  else
    let params := generatePostParams
      [("refresh_token", req.refresh_token), ("client_id", req.client_id),
       ("client_secret", req.client_secret), ("grant_type", req.grant_type)]
    match w.tokenEndpointResult with
    | Except.ok tokenBody =>
        let res := generateIdToken env w tokenBody.access_token req.refresh_token
        match res.1 with
        | Except.ok tr =>
            Trace.mk
              (preWrites req ++
                [Write.mk 200 []
                  (Body.tokenJson tokenBody.access_token tokenBody.refresh_token tr.idToken)])
              (Call.postToken env.tokenEndpoint params :: res.2)
        | Except.error e =>
            Trace.mk
              (preWrites req ++ [Write.mk 500 [] (Body.errJson e)])
              (Call.postToken env.tokenEndpoint params :: res.2)
    | Except.error e =>
        Trace.mk
          (preWrites req ++ [Write.mk 500 [] (Body.errJson e)])
          [Call.postToken env.tokenEndpoint params]

/-- Modelled from the spec: the source file defining `createLocalAuthRouter`
(exported by `packages/backend/src/tokeninterceptor` and mounted at
`/auth-local` in `packages/backend/src/index.ts`) is not among the source
files; only its import and mounting are. Per the spec, the local/dev path
takes the configured static dev token as if it were a genuine access token,
calls the Identity Minter with it, performs no request-body validation, and
returns a 200 with `access_token` and `refresh_token` both equal to the dev
token plus the minted `id_token`; Identity Minter failures map to HTTP 500
with the error in the body. -/
def localAuthHandler (env : Env) (w : World) : Trace :=
  let res := generateIdToken env w (some env.devToken) (some env.devToken)
  match res.1 with
  | Except.ok tr =>
      Trace.mk
        [Write.mk 200 [] (Body.tokenJson (some env.devToken) (some env.devToken) tr.idToken)]
        res.2
  | Except.error e =>
      Trace.mk [Write.mk 500 [] (Body.errJson e)] res.2

/- Concrete fixtures used by witnesses and counterexamples. -/

/-- A concrete environment. -/
def envA : Env := Env.mk "https://op/token" "https://op/userinfo" "K" "DEV"

/-- A fully valid authorization-code request. -/
def reqA : Request :=
  Request.mk "POST" (some "cid") (some "sec") (some "thecode")
    (some "authorization_code") (some "https://cb") none

/-- A world whose token endpoint and user-info endpoint both succeed. -/
def wOk : World :=
  World.mk (Except.ok (TokenBody.mk (some "A") (some "R")))
    (Except.ok (UserInfo.mk (some "u@x.com")))

/-- A POST request with an absent `client_id` (so it fails validation) and a
refresh-token grant. -/
def reqB : Request :=
  Request.mk "POST" none (some "sec") none (some "refresh_token") none (some "rt")

/-- A fully valid refresh-token request. -/
def reqR : Request :=
  Request.mk "POST" (some "cid") (some "sec") none (some "refresh_token") none (some "rt")

/-- A POST authorization-code request with valid mandatory fields but an
absent `code`. -/
def reqNoCode : Request :=
  Request.mk "POST" (some "cid") (some "sec") none (some "authorization_code")
    (some "https://cb") none

/-- A GET request whose body fields are all valid for a refresh grant. -/
def reqGet : Request :=
  Request.mk "GET" (some "cid") (some "sec") none (some "refresh_token") none (some "rt")

/-- A world whose token endpoint succeeds but whose user-info endpoint
fails. -/
def wErrUser : World :=
  World.mk (Except.ok (TokenBody.mk (some "A") (some "R"))) (Except.error "boom")

/-- A world whose token endpoint fails. -/
def wFail : World :=
  World.mk (Except.error "denied") (Except.ok (UserInfo.mk (some "u@x.com")))

/-- Claim C1: a valid authorization-code request against a working token
endpoint and user-info endpoint yields a single 200 JSON response carrying
the upstream access and refresh tokens and an id token signed with the
configured key whose sole payload claim is the fetched email. -/
theorem c1_auth_code_success (env : Env) (w : World) (req : Request)
    (a r e : String)
    (hm : req.method = "POST")
    (h1 : falsy req.client_id = false)
    (h2 : falsy req.client_secret = false)
    (hg : req.grant_type = some "authorization_code")
    (hc : falsy req.code = false)
    (hr : falsy req.redirect_uri = false)
    (ht : w.tokenEndpointResult = Except.ok (TokenBody.mk (some a) (some r)))
    (hu : w.userInfoResult = Except.ok (UserInfo.mk (some e))) :
    (handleTokenExchange env w req).writes =
      [Write.mk 200 []
        (Body.tokenJson (some a) (some r) (jwtSign (some e) env.jwtSigningKey))] := by
  have hgf : falsy (some "authorization_code") = false := by decide
  simp [handleTokenExchange, generateIdToken, preWrites, hm, h1, h2, hg, hgf, ht, hu]

/-- Witness for claim C1 at a concrete request, world and environment. -/
theorem c1_witness :
    (handleTokenExchange envA wOk reqA).writes =
      [Write.mk 200 []
        (Body.tokenJson (some "A") (some "R") (jwtSign (some "u@x.com") "K"))] :=
  c1_auth_code_success envA wOk reqA "A" "R" "u@x.com" rfl rfl rfl rfl rfl rfl rfl rfl

/-- Claim C2, counterexample to the statement as given: at a request that
fails the mandatory-parameter validation (absent `client_id`) the token
endpoint still succeeds and minting fails, yet the effective response is the
already-committed 400, not 500. -/
theorem c2_counterexample :
    effStatus (handleTokenExchange envA wErrUser reqB) = some 400 ∧
    effStatus (handleTokenExchange envA wErrUser reqB) ≠ some 500 := by decide

/-- Claim C2 as amended: for every POST request that passes the
mandatory-parameter validation, when the token endpoint succeeds and
identity minting fails, the effective response has status 500 — under both
the authorization-code and the refresh-token branch — and no attempted
write carries an `id_token`. -/
theorem c2_amended_minting_failure_500 (env : Env) (w : World) (req : Request)
    (tb : TokenBody) (e : String)
    (hm : req.method = "POST")
    (h1 : falsy req.client_id = false)
    (h2 : falsy req.client_secret = false)
    (h3 : falsy req.grant_type = false)
    (ht : w.tokenEndpointResult = Except.ok tb)
    (hu : w.userInfoResult = Except.error e) :
    effStatus (handleTokenExchange env w req) = some 500 ∧
    ∀ wr ∈ (handleTokenExchange env w req).writes, bodyHasIdToken wr.body = false := by
  have hgf : falsy (some "authorization_code") = false := by decide
  by_cases hg : req.grant_type = some "authorization_code" <;>
    simp [handleTokenExchange, generateIdToken, preWrites, effStatus, firstWrite,
      bodyHasIdToken, hm, h1, h2, h3, hg, hgf, ht, hu]

/-- Witness for the amended claim C2 at a concrete refresh-grant request. -/
theorem c2_witness :
    effStatus (handleTokenExchange envA wErrUser reqR) = some 500 ∧
    ∀ wr ∈ (handleTokenExchange envA wErrUser reqR).writes,
      bodyHasIdToken wr.body = false :=
  c2_amended_minting_failure_500 envA wErrUser reqR
    (TokenBody.mk (some "A") (some "R")) "boom"
    rfl (by decide) (by decide) (by decide) rfl rfl

/-- Claim C3: at a POST request with an absent `client_id` the handler does
answer 400, but — the validation branch not returning — the dispatch still
runs and the upstream token endpoint is POSTed the form body (with
`client_id` coerced to the literal string "undefined"), contradicting the
zero-upstream-calls part of the claim. -/
theorem c3_code_bug_upstream_still_called :
    effStatus (handleTokenExchange envA wOk reqB) = some 400 ∧
    (handleTokenExchange envA wOk reqB).calls.head? =
      some (Call.postToken "https://op/token"
        [("refresh_token", "rt"), ("client_id", "undefined"),
         ("client_secret", "sec"), ("grant_type", "refresh_token")]) := by decide

/-- Claim C4, counterexample to the statement as given: an
authorization-code request with valid mandatory fields but an absent `code`
is not answered 400; the dispatch proceeds and the upstream token endpoint
is called (here it fails, so the effective response is 500). -/
theorem c4_counterexample :
    effStatus (handleTokenExchange envA wFail reqNoCode) = some 500 ∧
    effStatus (handleTokenExchange envA wFail reqNoCode) ≠ some 400 ∧
    (handleTokenExchange envA wFail reqNoCode).calls ≠ [] := by decide

/-- Claim C4 as amended: the handler performs no validation of `code`,
`redirect_uri` or `refresh_token`. A POST request passing the
mandatory-parameter validation but missing the grant-specific field is
never answered 400 by any write and still proceeds to the upstream
token-endpoint call. -/
theorem c4_amended_no_grant_field_validation (env : Env) (w : World) (req : Request)
    (hm : req.method = "POST")
    (h1 : falsy req.client_id = false)
    (h2 : falsy req.client_secret = false)
    (h3 : falsy req.grant_type = false)
    (hmiss : (req.grant_type = some "authorization_code" ∧
        (req.code = none ∨ req.redirect_uri = none)) ∨
      (req.grant_type ≠ some "authorization_code" ∧ req.refresh_token = none)) :
    (∀ wr ∈ (handleTokenExchange env w req).writes, wr.status ≠ 400) ∧
    (handleTokenExchange env w req).calls ≠ [] := by
  have hgf : falsy (some "authorization_code") = false := by decide
  by_cases hg : req.grant_type = some "authorization_code" <;>
    cases htok : w.tokenEndpointResult <;>
      cases hui : w.userInfoResult <;>
        simp [handleTokenExchange, generateIdToken, preWrites, hm, h1, h2, h3, hg,
          hgf, htok, hui]

/-- Witness for the amended claim C4 at a concrete code-less
authorization-code request. -/
theorem c4_witness :
    (∀ wr ∈ (handleTokenExchange envA wOk reqNoCode).writes, wr.status ≠ 400) ∧
    (handleTokenExchange envA wOk reqNoCode).calls ≠ [] :=
  c4_amended_no_grant_field_validation envA wOk reqNoCode
    rfl (by decide) (by decide) (by decide) (Or.inl ⟨rfl, Or.inl rfl⟩)

/-- Claim C5, counterexample to the statement as given: at a request that
fails the mandatory-parameter validation (absent `client_id`) the upstream
token call is still made and fails, yet the effective response is the
already-committed 400, not 500. -/
theorem c5_counterexample :
    effStatus (handleTokenExchange envA wFail reqB) = some 400 ∧
    effStatus (handleTokenExchange envA wFail reqB) ≠ some 500 := by decide

/-- Claim C5 as amended: for every POST request that passes the
mandatory-parameter validation, when the upstream token-endpoint call fails
the effective response has status 500 and no user-info call is made in the
invocation (`generateIdToken` is never reached). -/
theorem c5_amended_token_failure_500 (env : Env) (w : World) (req : Request)
    (e : String)
    (hm : req.method = "POST")
    (h1 : falsy req.client_id = false)
    (h2 : falsy req.client_secret = false)
    (h3 : falsy req.grant_type = false)
    (ht : w.tokenEndpointResult = Except.error e) :
    effStatus (handleTokenExchange env w req) = some 500 ∧
    ∀ c ∈ (handleTokenExchange env w req).calls, isUserInfoCall c = false := by
  have hgf : falsy (some "authorization_code") = false := by decide
  by_cases hg : req.grant_type = some "authorization_code" <;>
    simp [handleTokenExchange, preWrites, effStatus, firstWrite, isUserInfoCall,
      hm, h1, h2, h3, hg, hgf, ht]

/-- Witness for the amended claim C5 at a concrete refresh-grant request. -/
theorem c5_witness :
    effStatus (handleTokenExchange envA wFail reqR) = some 500 ∧
    ∀ c ∈ (handleTokenExchange envA wFail reqR).calls, isUserInfoCall c = false :=
  c5_amended_token_failure_500 envA wFail reqR "denied"
    rfl (by decide) (by decide) (by decide) rfl

/-- Claim C6: for every request whose `grant_type` is not
`authorization_code` (any other value, or an absent one), the form body
POSTed to the upstream token endpoint is exactly the four fields
`refresh_token`, `client_id`, `client_secret`, `grant_type` in that order —
in particular it contains neither `code` nor `redirect_uri`. -/
theorem c6_refresh_form_body (env : Env) (w : World) (req : Request)
    (hg : req.grant_type ≠ some "authorization_code") :
    firstCallParams (handleTokenExchange env w req) =
      [("refresh_token", jsString req.refresh_token),
       ("client_id", jsString req.client_id),
       ("client_secret", jsString req.client_secret),
       ("grant_type", jsString req.grant_type)] := by
  cases htok : w.tokenEndpointResult <;>
    cases hui : w.userInfoResult <;>
      simp [handleTokenExchange, generateIdToken, generatePostParams, firstCallParams,
        hg, htok, hui]

/-- Witness for claim C6 at a concrete refresh-grant request. -/
theorem c6_witness :
    firstCallParams (handleTokenExchange envA wOk reqR) =
      [("refresh_token", "rt"), ("client_id", "cid"),
       ("client_secret", "sec"), ("grant_type", "refresh_token")] :=
  c6_refresh_form_body envA wOk reqR (by decide)

/-- Claim C7: for every non-POST request the effective (first, committed)
response write has status 405 with an `Allow: POST` header and no body. -/
theorem c7_non_post_405 (env : Env) (w : World) (req : Request)
    (hm : req.method ≠ "POST") :
    firstWrite (handleTokenExchange env w req) =
      some (Write.mk 405 [("Allow", "POST")] Body.empty) := by
  by_cases hg : req.grant_type = some "authorization_code" <;>
    cases htok : w.tokenEndpointResult <;>
      cases hui : w.userInfoResult <;>
        by_cases hv : (falsy req.client_id || falsy req.client_secret ||
            falsy req.grant_type) = true <;>
          simp [handleTokenExchange, generateIdToken, preWrites, firstWrite,
            hm, hg, htok, hui, hv]

/-- Witness for claim C7 at a concrete GET request. -/
theorem c7_witness :
    firstWrite (handleTokenExchange envA wOk reqGet) =
      some (Write.mk 405 [("Allow", "POST")] Body.empty) :=
  c7_non_post_405 envA wOk reqGet (by decide)

/-- Claim C8: on the local/dev exchange path, with a working user-info
endpoint, the response is a single 200 JSON write whose `access_token` and
`refresh_token` both equal the configured dev token and whose `id_token` is
signed with the process signing key over the fetched email; the handler
consults no request body at all. -/
theorem c8_local_auth_success (env : Env) (w : World) (e : String)
    (hu : w.userInfoResult = Except.ok (UserInfo.mk (some e))) :
    (localAuthHandler env w).writes =
      [Write.mk 200 []
        (Body.tokenJson (some env.devToken) (some env.devToken)
          (jwtSign (some e) env.jwtSigningKey))] := by
  simp [localAuthHandler, generateIdToken, hu]

/-- Witness for claim C8 at a concrete environment and world. -/
theorem c8_witness :
    (localAuthHandler envA wOk).writes =
      [Write.mk 200 []
        (Body.tokenJson (some "DEV") (some "DEV") (jwtSign (some "u@x.com") "K"))] :=
  c8_local_auth_success envA wOk "u@x.com" rfl

/-- Claim C9, counterexample to the statement as given: on the non-POST
path the effective response is the 405 write, which carries no body at all
— so not every path ends with a JSON body. -/
theorem c9_counterexample :
    firstWrite (handleTokenExchange envA wOk reqGet) =
      some (Write.mk 405 [("Allow", "POST")] Body.empty) ∧
    isJsonBody Body.empty = false := by decide

/-- Claim C9 as amended: every invocation of the handler attempts at least
one response write carrying a status code (no path falls through without
responding), but the effective response is not always JSON: the 405
response has an empty body and the 400 and the authorization-code-branch
500 responses carry plain text. -/
theorem c9_amended_always_writes (env : Env) (w : World) (req : Request) :
    (handleTokenExchange env w req).writes ≠ [] := by
  by_cases hg : req.grant_type = some "authorization_code" <;>
    cases htok : w.tokenEndpointResult <;>
      cases hui : w.userInfoResult <;>
        simp [handleTokenExchange, generateIdToken, hg, htok, hui]

/-- Claim C10: `generatePostParams` keeps every property of its argument,
key for key, coercing an `undefined` value to the literal string
"undefined"; consequently an authorization-code request missing `code` or
`redirect_uri`, and a refresh-grant request missing `refresh_token`, POSTs
a form body in which that field is present with value "undefined". -/
theorem c10_undefined_fields_in_form_body (env : Env) (w : World) (req : Request) :
    (∀ ps : List (String × Option String),
      (generatePostParams ps).map Prod.fst = ps.map Prod.fst) ∧
    (∀ (ps : List (String × Option String)) (k : String),
      (k, (none : Option String)) ∈ ps → (k, "undefined") ∈ generatePostParams ps) ∧
    (req.grant_type = some "authorization_code" → req.code = none →
      ("code", "undefined") ∈ firstCallParams (handleTokenExchange env w req)) ∧
    (req.grant_type = some "authorization_code" → req.redirect_uri = none →
      ("redirect_uri", "undefined") ∈ firstCallParams (handleTokenExchange env w req)) ∧
    (req.grant_type ≠ some "authorization_code" → req.refresh_token = none →
      ("refresh_token", "undefined") ∈ firstCallParams (handleTokenExchange env w req)) := by
  refine ⟨?_, ?_, ?_, ?_, ?_⟩
  · intro ps
    induction ps with
    | nil => rfl
    | cons p t ih => simp [generatePostParams] at ih ⊢
  · intro ps k hk
    exact List.mem_map.mpr ⟨(k, none), hk, rfl⟩
  · intro hg hc
    cases htok : w.tokenEndpointResult <;>
      cases hui : w.userInfoResult <;>
        simp [handleTokenExchange, generateIdToken, generatePostParams, firstCallParams,
          jsString, hg, hc, htok, hui]
  · intro hg hr
    cases htok : w.tokenEndpointResult <;>
      cases hui : w.userInfoResult <;>
        simp [handleTokenExchange, generateIdToken, generatePostParams, firstCallParams,
          jsString, hg, hr, htok, hui]
  · intro hg hr
    cases htok : w.tokenEndpointResult <;>
      cases hui : w.userInfoResult <;>
        simp [handleTokenExchange, generateIdToken, generatePostParams, firstCallParams,
          jsString, hg, hr, htok, hui]

/-- Witness for claim C10 at a concrete code-less authorization-code
request: the upstream form body carries `code=undefined`. -/
theorem c10_witness :
    ("code", "undefined") ∈ firstCallParams (handleTokenExchange envA wOk reqNoCode) :=
  (c10_undefined_fields_in_form_body envA wOk reqNoCode).2.2.1 rfl rfl

end TokenInterceptor
